import Mathlib

/-!
Verification of `atualizar_espelho.py`, a resilient one-way mirror of a
fixed set of spreadsheet columns.  The Python source is shallowly embedded:
cell values become the inductive type `Value`, Python floats are modelled as
exact rationals, randomness (`random.uniform`) becomes an explicit jitter
oracle, and the remote API becomes an oracle from attempt numbers to call
outcomes.  Every definition mirrors the corresponding Python function.
-/

namespace Espelho

/-- Cell values as they cross the coercion functions: Python `None`, `str`,
`int`, `float` (modelled as an exact rational), `datetime.date` and
`datetime.datetime` (only the date component is relevant to the program). -/
inductive Value where
  | none
  | str (s : String)
  | int (n : Int)
  | float (q : ℚ)
  | dateV (y : Int) (m : Nat) (d : Nat)
  | datetimeV (y : Int) (m : Nat) (d : Nat)
deriving DecidableEq, Repr

/-- Configuration constant `BATCH_ROWS = 3000`. -/
def BATCH_ROWS : Nat := 3000

/-- Configuration constant `MAX_ROWS_SCAN = 120_000`. -/
def MAX_ROWS_SCAN : Nat := 120000

/-- Configuration constant `MAX_RUN_TRIES = 3`. -/
def MAX_RUN_TRIES : Nat := 3

/-- Configuration constant `DEST_DATA_START_ROW = 3`. -/
def DEST_DATA_START_ROW : Nat := 3

/-- Python whitespace characters stripped by `str.strip()` (ASCII part). -/
def isPySpace (c : Char) : Bool :=
  c = ' ' || c = '\t' || c = '\n' || c = '\r' || c = '\x0b' || c = '\x0c'

/-- Python `str.strip()`. -/
def pyStrip (s : String) : String :=
  ⟨((s.toList.dropWhile isPySpace).reverse.dropWhile isPySpace).reverse⟩

/-- Numeric value of a list of decimal digit characters. -/
def digitsVal (l : List Char) : Nat :=
  l.foldl (fun a c => 10 * a + (c.toNat - 48)) 0

/-- Python `float(s)` restricted to strings over digits, `.` and `-` (the
only characters that can remain after `clean_currency`'s filtering and
separator rewriting).  Accepts an optional leading minus, then digits with
at most one dot and at least one digit; everything else raises `ValueError`
(modelled as `none`).  Exponents, `inf`/`nan`, underscores and `+` cannot
occur because the preceding regex removed those characters. -/
def pyFloat (s : String) : Option ℚ :=
  let cs := s.toList
  let signBody : Bool × List Char :=
    match cs with
    | '-' :: rest => (true, rest)
    | _ => (false, cs)
  let neg := signBody.1
  let body := signBody.2
  let intPart := body.takeWhile Char.isDigit
  let rest := body.dropWhile Char.isDigit
  let mag : Option ℚ :=
    match rest with
    | [] => if intPart.isEmpty then Option.none else some (mkRat (digitsVal intPart) 1)
    | '.' :: frac =>
        if frac.all Char.isDigit && !(intPart.isEmpty && frac.isEmpty) then
          some (mkRat (digitsVal intPart * 10 ^ frac.length + digitsVal frac)
            (10 ^ frac.length))
        else Option.none
    | _ => Option.none
  mag.map (fun q => if neg then -q else q)

/-- Characters kept by `re.sub(r"[^0-9,\.\-]", "", s)`. -/
def keepCurrencyChar (c : Char) : Bool :=
  c.isDigit || c = ',' || c = '.' || c = '-'

/-- Python `str(value)` for a `date` value: zero-padded ISO `YYYY-MM-DD`.
Only ever applied to valid dates in the program. -/
def pad2 (n : Nat) : String :=
  if n < 10 then "0" ++ toString n else toString n

/-- Python `str()` of a date, `"YYYY-MM-DD"` (4-digit years in scope). -/
def pyStrDate (y : Int) (m d : Nat) : String :=
  toString y ++ "-" ++ pad2 m ++ "-" ++ pad2 d

/-- Python `str(v)` over the embedded value domain.  `str` of a float is
abstracted by the rational's printed form: the program only ever tests
whether such a rendering is blank after stripping, and every Python float
rendering is non-blank, as is this one. -/
def pyStr (v : Value) : String :=
  match v with
  | .none => "None"
  | .str s => s
  | .int n => toString n
  | .float q => toString q
  | .dateV y m d => pyStrDate y m d
  | .datetimeV y m d => pyStrDate y m d ++ " 00:00:00"

/-- The `try: return float(s) / except: return ""` tail of
`clean_currency`. -/
def floatOrBlank (o : Option ℚ) : Value :=
  match o with
  | some q => .float q
  | Option.none => .str ""

/-- String-processing tail of `clean_currency` (`s = str(value).strip()`
onward): filter to `[0-9,.\-]`, rewrite separators, parse as float. -/
def clean_currency_str (raw : String) : Value :=
  let s0 := pyStrip raw
  let cs := (s0.toList.filter keepCurrencyChar)
  let s2 : List Char :=
    if cs.contains ',' && cs.contains '.' then
      (cs.filter (fun c => c ≠ '.')).map (fun c => if c = ',' then '.' else c)
    else if cs.contains ',' && !cs.contains '.' then
      cs.map (fun c => if c = ',' then '.' else c)
    else cs
  floatOrBlank (pyFloat ⟨s2⟩)

/-- `clean_currency(value)` from the source: `None`/`""` pass to `""`,
numbers are cast to float, strings are filtered and reparsed. -/
def clean_currency (value : Value) : Value :=
  match value with
  | .none => .str ""
  | .int n => .float (n : ℚ)
  | .float q => .float q
  | .str s => if s = "" then .str "" else clean_currency_str s
  | .dateV y m d => clean_currency_str (pyStr (.dateV y m d))
  | .datetimeV y m d => clean_currency_str (pyStr (.datetimeV y m d))

/-- Gregorian leap-year test, as in Python's `datetime`. -/
def isLeapYear (y : Int) : Bool :=
  y % 4 = 0 && (y % 100 ≠ 0 || y % 400 = 0)

/-- Length of month `m` of year `y` (Python `calendar` rules). -/
def daysInMonth (y : Int) (m : Nat) : Nat :=
  if m = 2 then (if isLeapYear y then 29 else 28)
  else if m = 4 || m = 6 || m = 9 || m = 11 then 30
  else 31

/-- Days in the years strictly before year `y` (proleptic Gregorian),
so that `daysBeforeYear 1 = 0`, matching Python's `date.toordinal` with
0001-01-01 ↦ 1.  Years in scope are ≥ 1, so `Int` division is exact
floor division here. -/
def daysBeforeYear (y : Int) : Int :=
  let p := y - 1
  365 * p + p / 4 - p / 100 + p / 400

/-- Days in the months of year `y` strictly before month `m`. -/
def daysBeforeMonth (y : Int) (m : Nat) : Nat :=
  ((List.range m).filter (fun k => 1 ≤ k)).foldl (fun a k => a + daysInMonth y k) 0

/-- Python `date(y, m, d).toordinal()`. -/
def dateOrdinal (y : Int) (m d : Nat) : Int :=
  daysBeforeYear y + (daysBeforeMonth y m : Int) + (d : Int)

/-- The sheet epoch `date(1899, 12, 30)` used by `to_gs_serial`. -/
def epochOrdinal : Int := dateOrdinal 1899 12 30

/-- Serial value `float((py_date - epoch).days)` for a parsed date. -/
def gsSerial (y : Int) (m d : Nat) : Value :=
  .float ((dateOrdinal y m d - epochOrdinal : Int) : ℚ)

/-- Tail of `to_gs_serial`'s string branch: a parsed date becomes its
serial, `None` (all formats failed) becomes `""`. -/
def serialOrBlank (o : Option (Int × Nat × Nat)) : Value :=
  match o with
  | some (y, m, d) => gsSerial y m d
  | Option.none => .str ""

/-- Candidate matches of `strptime`'s `%d` pattern
`(3[01]|[12]\d|0[1-9]|[1-9]| [1-9])`, in regex alternation order, each with
the unconsumed remainder (the regex engine backtracks through these). -/
def dayCands (cs : List Char) : List (Nat × List Char) :=
  (match cs with
   | '3' :: c :: r => if c = '0' || c = '1' then [(30 + (c.toNat - 48), r)] else []
   | _ => []) ++
  (match cs with
   | a :: b :: r =>
       if (a = '1' || a = '2') && b.isDigit then
         [((a.toNat - 48) * 10 + (b.toNat - 48), r)]
       else []
   | _ => []) ++
  (match cs with
   | '0' :: b :: r => if '1' ≤ b && b ≤ '9' then [(b.toNat - 48, r)] else []
   | _ => []) ++
  (match cs with
   | a :: r => if '1' ≤ a && a ≤ '9' then [(a.toNat - 48, r)] else []
   | _ => []) ++
  (match cs with
   | ' ' :: a :: r => if '1' ≤ a && a ≤ '9' then [(a.toNat - 48, r)] else []
   | _ => [])

/-- Candidate matches of `strptime`'s `%m` pattern `(1[0-2]|0[1-9]|[1-9])`. -/
def monthCands (cs : List Char) : List (Nat × List Char) :=
  (match cs with
   | '1' :: b :: r => if '0' ≤ b && b ≤ '2' then [(10 + (b.toNat - 48), r)] else []
   | _ => []) ++
  (match cs with
   | '0' :: b :: r => if '1' ≤ b && b ≤ '9' then [(b.toNat - 48, r)] else []
   | _ => []) ++
  (match cs with
   | a :: r => if '1' ≤ a && a ≤ '9' then [(a.toNat - 48, r)] else []
   | _ => [])

/-- Match of `strptime`'s `%Y` pattern (exactly four digits). -/
def year4Cands (cs : List Char) : List (Nat × List Char) :=
  match cs with
  | a :: b :: c :: d :: r =>
      if a.isDigit && b.isDigit && c.isDigit && d.isDigit then
        [(digitsVal [a, b, c, d], r)]
      else []
  | _ => []

/-- Match of `strptime`'s `%y` pattern (two digits), with CPython's century
rule: 0–68 ↦ 2000s, 69–99 ↦ 1900s. -/
def year2Cands (cs : List Char) : List (Nat × List Char) :=
  match cs with
  | a :: b :: r =>
      if a.isDigit && b.isDigit then
        let v := digitsVal [a, b]
        [(if v ≤ 68 then 2000 + v else 1900 + v, r)]
      else []
  | _ => []

/-- Validity check performed by `datetime.date(year, month, day)` inside
`strptime`; an invalid combination raises `ValueError`, which the caller
catches to fall through to the next format. -/
def mkValidDate (y : Int) (m d : Nat) : Option (Int × Nat × Nat) :=
  if 1 ≤ y && y ≤ 9999 && 1 ≤ m && m ≤ 12 && 1 ≤ d && d ≤ daysInMonth y m then
    some (y, m, d)
  else Option.none

/-- `strptime(s, "%d<sep>%m<sep>Y")` for a day-month-year format, where
`year` consumes either four digits (`%Y`) or two (`%y`).  The whole string
must be consumed (`strptime` rejects trailing input). -/
def tryFormatDMY (sep : Char) (year : List Char → List (Nat × List Char))
    (cs : List Char) : Option (Int × Nat × Nat) :=
  (((dayCands cs).filterMap (fun dc =>
      match dc.2 with
      | c1 :: r2 =>
          if c1 = sep then
            ((monthCands r2).filterMap (fun mc =>
              match mc.2 with
              | c2 :: r4 =>
                  if c2 = sep then
                    ((year r4).filterMap (fun yc =>
                      if yc.2 = ([] : List Char) then
                        mkValidDate (yc.1 : Int) mc.1 dc.1
                      else Option.none)).head?
                  else Option.none
              | [] => Option.none)).head?
          else Option.none
      | [] => Option.none)).head?)

/-- `strptime(s, "%Y-%m-%d")` (ISO), whole string consumed. -/
def tryFormatYMD (cs : List Char) : Option (Int × Nat × Nat) :=
  (((year4Cands cs).filterMap (fun yc =>
      match yc.2 with
      | '-' :: r2 =>
          ((monthCands r2).filterMap (fun mc =>
            match mc.2 with
            | '-' :: r4 =>
                ((dayCands r4).filterMap (fun dc =>
                  if dc.2 = ([] : List Char) then
                    mkValidDate (yc.1 : Int) mc.1 dc.1
                  else Option.none)).head?
            | _ => Option.none)).head?
      | _ => Option.none)).head?)

/-- The ordered format list of `to_gs_serial`:
`("%d/%m/%Y", "%Y-%m-%d", "%d-%m-%Y", "%d/%m/%y")`, first success wins. -/
def parseDateFormats (s : String) : Option (Int × Nat × Nat) :=
  let cs := s.toList
  match tryFormatDMY '/' year4Cands cs with
  | some r => some r
  | Option.none =>
    match tryFormatYMD cs with
    | some r => some r
    | Option.none =>
      match tryFormatDMY '-' year4Cands cs with
      | some r => some r
      | Option.none => tryFormatDMY '/' year2Cands cs

/-- `to_gs_serial(dt)` from the source: empty passes through as `""`,
numerics pass through unchanged, structured dates take their date
component, strings are parsed against the ordered format list; a parsed
date becomes `float((py_date - date(1899, 12, 30)).days)`. -/
def to_gs_serial (dt : Value) : Value :=
  match dt with
  | .none => .str ""
  | .int n => .int n
  | .float q => .float q
  | .dateV y m d => gsSerial y m d
  | .datetimeV y m d => gsSerial y m d
  | .str s0 =>
      if s0 = "" then .str ""
      else
        let s := pyStrip s0
        if s = "" then .str ""
        else serialOrBlank (parseDateFormats s)

/-- Python's `sub in s` substring test, on character lists. -/
def strContains (hay needle : String) : Bool :=
  (hay.toList.tails).any (fun t => needle.toList.isPrefixOf t)

/-- `is_retryable_api_error`: substring scan of the rendered error for any
of the transient status codes. -/
def is_retryable_api_error (s : String) : Bool :=
  ["429", "500", "502", "503"].any (fun code => strContains s code)

/-- Blank test applied to a trailing cell by `calc_num_rows_from_columns`:
`v[-1] == "" or str(v[-1]).strip() == ""`.  The first disjunct only holds
for the empty string, which the second also covers; non-string values
render non-blank under `str`. -/
def isBlankCell (v : Value) : Bool :=
  v = .str "" || (pyStrip (pyStr v)) = ""

/-- The `while v and (...): v.pop()` loop of `calc_num_rows_from_columns`:
drop the trailing run of blank cells. -/
def dropTrailingBlanks (v : List Value) : List Value :=
  ((v.reverse.dropWhile isBlankCell)).reverse

/-- `calc_num_rows_from_columns(cols_dict)`: the dict is modelled as an
association list in insertion order; for each column, trailing blanks are
stripped and the running maximum length is kept. -/
def calc_num_rows_from_columns (cols : List (String × List Value)) : Nat :=
  cols.foldl
    (fun max_len p =>
      let v := dropTrailingBlanks p.2
      if v.length > max_len then v.length else max_len)
    0

/-- Type tags of `MAPPINGS`. -/
inductive Tipo where
  | texto
  | data
  | valor
deriving DecidableEq, Repr

/-- The 23-entry `MAPPINGS` table `(coluna_origem, coluna_destino, tipo)`. -/
def MAPPINGS : List (String × String × Tipo) :=
  [("AC", "B", .texto), ("AA", "C", .texto), ("Z", "D", .texto),
   ("AK", "E", .texto), ("A", "F", .texto), ("B", "G", .texto),
   ("H", "H", .texto), ("AJ", "I", .texto), ("I", "J", .texto),
   ("Q", "K", .data), ("R", "L", .data), ("M", "M", .data),
   ("AL", "N", .data), ("AM", "O", .data), ("N", "P", .data),
   ("J", "Q", .valor), ("K", "R", .valor), ("Y", "S", .valor),
   ("X", "T", .valor), ("AB", "U", .valor), ("AF", "V", .valor),
   ("AE", "W", .valor), ("AN", "X", .texto)]

/-- Normalization step of `run_once` (the loop over `enumerate(MAPPINGS)`):
`col_vals_raw = batch[i] if i < len(batch) else []` and
`flat = [row[0] if row else "" for row in col_vals_raw]`, keyed by source
column.  `batch` is the raw ragged result of the batched read: one list of
single-cell rows per requested range. -/
def normalize_cols (batch : List (List (List Value))) :
    List (String × List Value) :=
  MAPPINGS.enum.map (fun p =>
    let col_vals_raw := if p.1 < batch.length then batch.getD p.1 [] else []
    (p.2.1, col_vals_raw.map (fun row => row.headD (.str ""))))

/-- The chunked-write `while` loop of `run_once`: from cursor `i` and
destination row `start_row_dst`, emit the address range of each
`set_matrix` call.  `chunk = treated_matrix[i:i+BATCH_ROWS]` has length
`min BATCH_ROWS (n - i)`; the cursor advances by that length and the next
start row is `chunk_end + 1`. -/
def writeLoop (n i start_row_dst : Nat) : List (Nat × Nat) :=
  if _h : i < n then
    let len := min BATCH_ROWS (n - i)
    (start_row_dst, start_row_dst + len - 1) ::
      writeLoop n (i + len) (start_row_dst + len)
  else []
termination_by n - i
decreasing_by
  have hlen : 1 ≤ min BATCH_ROWS (n - i) := by
    simp only [BATCH_ROWS]
    omega
  omega

/-- Address ranges of the data writes issued by `run_once` for
`num_rows_data = n` (the `if treated_matrix:` guard is the `n = 0` case,
where the loop would also issue nothing). -/
def writeChunks (n : Nat) : List (Nat × Nat) :=
  writeLoop n 0 DEST_DATA_START_ROW

/-- Outcome of one invocation of the function wrapped by `with_retry`:
a successful return value, a `gspread` `APIError` with its rendered text,
or any other exception. -/
inductive CallOutcome where
  | ok (v : Nat)
  | apiError (msg : String)
  | exc (msg : String)
deriving DecidableEq, Repr

/-- Result of `with_retry`: the returned value or the re-raised exception,
the number of the attempt on which the loop stopped (= total calls made),
and the list of sleep durations in order. -/
abbrev RetryResult := Except CallOutcome Nat × Nat × List ℚ

/-- The `while True` loop of `with_retry`, from attempt number `attempt`.
`call` is the oracle giving each attempt's outcome and `jitter` the oracle
for `random.uniform(0, 0.5)`.  The `APIError` arm re-raises when the error
is not retryable or the budget is exhausted, else sleeps
`min(cap, base * 2**(attempt-1)) + jitter` and retries; the generic arm
re-raises when `attempt >= min(3, max_tries)`, else sleeps `1.0 + jitter`
and retries. -/
def with_retry_from (call : Nat → CallOutcome) (max_tries : Nat)
    (base cap : ℚ) (jitter : Nat → ℚ) (attempt : Nat) : RetryResult :=
  match call attempt with
  | .ok v => (.ok v, attempt, [])
  | .apiError m =>
      if h : ¬(is_retryable_api_error m = true) ∨ max_tries ≤ attempt then
        (.error (.apiError m), attempt, [])
      else
        let d := min cap (base * 2 ^ (attempt - 1)) + jitter attempt
        let rest := with_retry_from call max_tries base cap jitter (attempt + 1)
        (rest.1, rest.2.1, d :: rest.2.2)
  | .exc m =>
      if h : min 3 max_tries ≤ attempt then
        (.error (.exc m), attempt, [])
      else
        let d := 1 + jitter attempt
        let rest := with_retry_from call max_tries base cap jitter (attempt + 1)
        (rest.1, rest.2.1, d :: rest.2.2)
termination_by max_tries - attempt
decreasing_by
  · omega
  · omega

/-- `with_retry(call, desc, max_tries, base, cap)`: the loop starts at
attempt 1. -/
def with_retry (call : Nat → CallOutcome) (max_tries : Nat)
    (base cap : ℚ) (jitter : Nat → ℚ) : RetryResult :=
  with_retry_from call max_tries base cap jitter 1

/-- Default arguments of `with_retry`. -/
def WITH_RETRY_DEFAULT_MAX_TRIES : Nat := 9

/-- Outcome of one `run_once()` execution as seen by `main`. -/
inductive RunOutcome where
  | ok
  | apiError (msg : String)
  | exc (msg : String)
deriving DecidableEq, Repr

/-- Result of `main`: normal return or re-raised failure, the run attempt
on which `main` stopped, and the restart delays slept in order. -/
abbrev MainResult := Except RunOutcome Unit × Nat × List ℚ

/-- The `for attempt in range(1, MAX_RUN_TRIES + 1)` loop of `main`, from
run attempt `attempt`.  A retryable `APIError` restarts the whole run with
delay `5.0 * attempt + uniform(0, 1.5)` while attempts remain; any other
`APIError` is re-raised immediately; an unexpected exception restarts with
flat delay `3.0 + uniform(0, 1.0)` while attempts remain. -/
def main_from (run : Nat → RunOutcome) (jitter : Nat → ℚ) (attempt : Nat) :
    MainResult :=
  match run attempt with
  | .ok => (.ok (), attempt, [])
  | .apiError m =>
      if h : is_retryable_api_error m = true ∧ attempt < MAX_RUN_TRIES then
        let d := 5 * (attempt : ℚ) + jitter attempt
        let rest := main_from run jitter (attempt + 1)
        (rest.1, rest.2.1, d :: rest.2.2)
      else (.error (.apiError m), attempt, [])
  | .exc m =>
      if h : attempt < MAX_RUN_TRIES then
        let d := 3 + jitter attempt
        let rest := main_from run jitter (attempt + 1)
        (rest.1, rest.2.1, d :: rest.2.2)
      else (.error (.exc m), attempt, [])
termination_by MAX_RUN_TRIES - attempt
decreasing_by
  · omega
  · omega

/-- `main()`: run attempts start at 1. -/
def main_run (run : Nat → RunOutcome) (jitter : Nat → ℚ) : MainResult :=
  main_from run jitter 1

/-- Claim-side phrasing of trailing-blank trimming: the column's length
after stripping its trailing run of blank entries. -/
def trimmedLength (v : List Value) : Nat :=
  v.length - (v.reverse.takeWhile isBlankCell).length

/-- Claim-side phrasing of row-count inference: the maximum trimmed length
across all columns, `0` for an empty or all-blank collection. -/
def infer_row_count_claim (cols : List (String × List Value)) : Nat :=
  (cols.map (fun p => trimmedLength p.2)).foldr max 0

/-- Sleep durations `min(cap, base * 2**(b-1)) + jitter(b)` for attempts
`a, a+1, ..., k-1`, as slept by `with_retry`'s retryable-`APIError` arm. -/
def apiSleeps (base cap : ℚ) (jitter : Nat → ℚ) (a k : Nat) : List ℚ :=
  (List.range' a (k - a)).map (fun b => min cap (base * 2 ^ (b - 1)) + jitter b)

/-- Restart delay slept by `main` after a failed run attempt `b`:
`5.0 * b + uniform(0, 1.5)` after an `APIError`, `3.0 + uniform(0, 1.0)`
after an unexpected exception. -/
def mainDelay (run : Nat → RunOutcome) (jitter : Nat → ℚ) (b : Nat) : ℚ :=
  match run b with
  | .apiError _ => 5 * (b : ℚ) + jitter b
  | _ => 3 + jitter b

/-- Restart delays slept by `main` between run attempts `a, ..., k-1`. -/
def mainDelays (run : Nat → RunOutcome) (jitter : Nat → ℚ) (a k : Nat) :
    List ℚ :=
  (List.range' a (k - a)).map (mainDelay run jitter)

/-! Theorems. -/

/-- C1 (counterexample): the US-format string `"1,234.56"` is not mapped to
`1234.56`; the code removes the dot as a thousands separator and reads the
comma as the decimal point, yielding `1.23456`. -/
theorem clean_currency_us_format_counterexample :
    clean_currency (.str "1,234.56") = .float (3858 / 3125) ∧
    clean_currency (.str "1,234.56") ≠ .float (30864 / 25) := by
  have h : clean_currency (.str "1,234.56") = .float (mkRat 123456 100000) := by
    decide
  have hq : (mkRat 123456 100000 : ℚ) = 3858 / 3125 := by
    rw [Rat.mkRat_eq_div]; norm_num
  refine ⟨by rw [h, hq], ?_⟩
  rw [h, hq]
  simp only [ne_eq, Value.float.injEq]
  norm_num

/-- C1 (amended): currency coercion maps `"1.234,56"` to `1234.56`,
`"1,234.56"` to `1.23456` (dot removed as thousands separator, comma used
as decimal point), `""` to `""`, `"abc"` to `""`, and the numeric `1500`
to the float `1500.0`. -/
theorem clean_currency_test_vectors :
    clean_currency (.str "1.234,56") = .float (30864 / 25) ∧
    clean_currency (.str "1,234.56") = .float (3858 / 3125) ∧
    clean_currency (.str "") = .str "" ∧
    clean_currency (.str "abc") = .str "" ∧
    clean_currency (.int 1500) = .float 1500 := by
  have h1 : clean_currency (.str "1.234,56") = .float (mkRat 123456 100) := by
    decide
  have hq1 : (mkRat 123456 100 : ℚ) = 30864 / 25 := by
    rw [Rat.mkRat_eq_div]; norm_num
  have h2 : clean_currency (.str "1,234.56") = .float (mkRat 123456 100000) := by
    decide
  have hq2 : (mkRat 123456 100000 : ℚ) = 3858 / 3125 := by
    rw [Rat.mkRat_eq_div]; norm_num
  exact ⟨by rw [h1, hq1], by rw [h2, hq2], by decide, by decide, by decide⟩

/-- C2 (evaluation at the failing input): for a batched-read result whose
only range came back with a single row, the normalization step yields a
column of length 1, not the scan limit 120000 claimed by the spec and by
the code's own comment — `flat` keeps the ragged length and is never
padded. -/
theorem normalize_cols_no_padding :
    ((normalize_cols [[[Value.str "x"]]]).headD ("", [])).2.length = 1 ∧
    ((normalize_cols [[[Value.str "x"]]]).headD ("", [])).2.length ≠
      MAX_ROWS_SCAN := by
  decide

/-- Substring test `strContains` agrees with the infix relation. -/
lemma strContains_iff (hay needle : String) :
    strContains hay needle = true ↔ needle.toList <:+: hay.toList := by
  simp only [strContains, List.any_eq_true, List.mem_tails,
    List.isPrefixOf_iff_prefix, List.infix_iff_prefix_suffix]
  exact ⟨fun ⟨t, h1, h2⟩ => ⟨t, h2, h1⟩, fun ⟨t, h1, h2⟩ => ⟨t, h2, h1⟩⟩

/-- C7: an error is classified retryable iff its rendered text contains one
of the substrings `"429"`, `"500"`, `"502"`, `"503"`; rendered errors for
400, 403 and 404 contain none of them and are non-retryable. -/
theorem is_retryable_classification :
    (∀ s : String, is_retryable_api_error s = true ↔
      ∃ c ∈ (["429", "500", "502", "503"] : List String),
        c.toList <:+: s.toList) ∧
    is_retryable_api_error "APIError: [400]: Bad Request" = false ∧
    is_retryable_api_error "APIError: [403]: PERMISSION_DENIED" = false ∧
    is_retryable_api_error "APIError: [404]: Requested entity was not found." = false ∧
    is_retryable_api_error "APIError: [429]: Quota exceeded" = true ∧
    is_retryable_api_error "APIError: [500]: Internal error encountered." = true ∧
    is_retryable_api_error "APIError: [502]: Bad gateway" = true ∧
    is_retryable_api_error "APIError: [503]: The service is currently unavailable." = true := by
  refine ⟨fun s => ?_, by decide, by decide, by decide, by decide, by decide,
    by decide, by decide⟩
  simp only [is_retryable_api_error, List.any_eq_true, strContains_iff]

/-- C8: the structured date 2024-01-15, the string `"15/01/2024"` and the
string `"2024-01-15"` all map to the same serial,
`float((date(2024, 1, 15) - date(1899, 12, 30)).days)`; the unparseable
string `"not-a-date"` maps to `""`. -/
theorem to_gs_serial_test_vectors :
    to_gs_serial (.dateV 2024 1 15) =
      .float ((dateOrdinal 2024 1 15 - epochOrdinal : Int) : ℚ) ∧
    to_gs_serial (.str "15/01/2024") = to_gs_serial (.dateV 2024 1 15) ∧
    to_gs_serial (.str "2024-01-15") = to_gs_serial (.dateV 2024 1 15) ∧
    to_gs_serial (.dateV 2024 1 15) = .float 45306 ∧
    to_gs_serial (.str "not-a-date") = .str "" := by
  decide

/-- The float-parse fallback only produces a float or `""`. -/
lemma floatOrBlank_total (o : Option ℚ) :
    (∃ q, floatOrBlank o = .float q) ∨ floatOrBlank o = .str "" := by
  cases o with
  | none => exact .inr rfl
  | some q => exact .inl ⟨q, rfl⟩

/-- String tail of `clean_currency` only produces a float or `""`. -/
lemma clean_currency_str_total (raw : String) :
    (∃ q, clean_currency_str raw = .float q) ∨
      clean_currency_str raw = .str "" := by
  unfold clean_currency_str
  exact floatOrBlank_total _

/-- The date-parse fallback only produces a float or `""`. -/
lemma serialOrBlank_total (o : Option (Int × Nat × Nat)) :
    (∃ q, serialOrBlank o = .float q) ∨ serialOrBlank o = .str "" := by
  cases o with
  | none => exact .inr rfl
  | some t => exact .inl ⟨_, rfl⟩

/-- C9: both coercers are total over the whole value domain — every result
is a coerced number (or a numeric passthrough) or the empty string, and
being Lean functions they cannot raise, so a malformed cell cannot abort
the run. -/
theorem coercers_total (v : Value) :
    ((∃ q, clean_currency v = .float q) ∨ clean_currency v = .str "") ∧
    ((∃ q, to_gs_serial v = .float q) ∨ (∃ n, to_gs_serial v = .int n) ∨
      to_gs_serial v = .str "") := by
  constructor
  · cases v with
    | none => exact .inr rfl
    | int n => exact .inl ⟨_, rfl⟩
    | float q => exact .inl ⟨_, rfl⟩
    | str s =>
        by_cases hs : s = ""
        · subst hs; exact .inr rfl
        · simpa [clean_currency, hs] using clean_currency_str_total s
    | dateV y m d => exact clean_currency_str_total _
    | datetimeV y m d => exact clean_currency_str_total _
  · cases v with
    | none => exact .inr (.inr rfl)
    | int n => exact .inr (.inl ⟨_, rfl⟩)
    | float q => exact .inl ⟨_, rfl⟩
    | dateV y m d => exact .inl ⟨_, rfl⟩
    | datetimeV y m d => exact .inl ⟨_, rfl⟩
    | str s =>
        simp only [to_gs_serial]
        by_cases h1 : s = ""
        · simp [h1]
        · simp only [if_neg h1]
          by_cases h2 : pyStrip s = ""
          · simp [h2]
          · simp only [if_neg h2]
            rcases serialOrBlank_total (parseDateFormats (pyStrip s)) with ⟨q, hq⟩ | hb
            · exact .inl ⟨q, hq⟩
            · exact .inr (.inr hb)

/-- Stripping trailing blanks leaves exactly the trimmed length. -/
lemma dropTrailingBlanks_length (v : List Value) :
    (dropTrailingBlanks v).length = trimmedLength v := by
  unfold dropTrailingBlanks trimmedLength
  rw [List.length_reverse]
  have h := congrArg List.length
    (List.takeWhile_append_dropWhile (p := isBlankCell) (l := v.reverse))
  rw [List.length_append, List.length_reverse] at h
  omega

/-- Accumulator form of the running-maximum fold in
`calc_num_rows_from_columns`. -/
lemma calc_num_rows_go (cols : List (String × List Value)) :
    ∀ a : Nat,
      cols.foldl (fun max_len p =>
        let v := dropTrailingBlanks p.2
        if v.length > max_len then v.length else max_len) a =
      max a ((cols.map (fun p => trimmedLength p.2)).foldr max 0) := by
  induction cols with
  | nil => intro a; simp
  | cons p cols ih =>
      intro a
      rw [List.foldl_cons, ih]
      simp only [List.map_cons, List.foldr_cons, dropTrailingBlanks_length]
      split <;> omega

/-- Folding `max` over a list of zeros gives zero. -/
lemma foldr_max_zeros : ∀ l : List Nat, (∀ x ∈ l, x = 0) → l.foldr max 0 = 0 := by
  intro l
  induction l with
  | nil => intro _; rfl
  | cons x l ih =>
      intro h
      have hx : x = 0 := h x (List.mem_cons_self x l)
      have hl : l.foldr max 0 = 0 := ih (fun y hy => h y (List.mem_cons_of_mem x hy))
      simp [hx, hl]

/-- C4: `calc_num_rows_from_columns` returns the maximum, over all columns,
of the column's length after stripping its trailing blank run, and returns
0 when every column is entirely blank. -/
theorem calc_num_rows_is_max_trimmed (cols : List (String × List Value)) :
    calc_num_rows_from_columns cols = infer_row_count_claim cols ∧
    ((∀ p ∈ cols, ∀ v ∈ p.2, isBlankCell v = true) →
      calc_num_rows_from_columns cols = 0) := by
  have hmain : calc_num_rows_from_columns cols = infer_row_count_claim cols := by
    unfold calc_num_rows_from_columns infer_row_count_claim
    simpa using calc_num_rows_go cols 0
  refine ⟨hmain, fun hblank => ?_⟩
  rw [hmain]
  unfold infer_row_count_claim
  apply foldr_max_zeros
  intro x hx
  rcases List.mem_map.mp hx with ⟨p, hp, rfl⟩
  rw [← dropTrailingBlanks_length]
  unfold dropTrailingBlanks
  rw [List.dropWhile_eq_nil_iff.mpr
    (fun v hv => hblank p hp v (List.mem_reverse.mp hv))]
  rfl

/-- Witness for the all-blank case of row-count inference: a column of
blank and whitespace-only cells infers 0 data rows. -/
theorem calc_num_rows_is_max_trimmed_witness :
    calc_num_rows_from_columns
      [("A", [Value.str "", Value.str " "]), ("B", [Value.str ""])] = 0 :=
  (calc_num_rows_is_max_trimmed
    [("A", [Value.str "", Value.str " "]), ("B", [Value.str ""])]).2
    (by decide)

/-- Rows covered by the write chunks from cursor `i` are exactly the rows
`start .. start + (n - i) - 1`. -/
lemma writeLoop_rows (n : Nat) :
    ∀ d i start, n - i ≤ d →
      (writeLoop n i start).flatMap (fun p => List.range' p.1 (p.2 + 1 - p.1)) =
        List.range' start (n - i) := by
  intro d
  induction d with
  | zero =>
      intro i start h
      rw [writeLoop, dif_neg (by omega)]
      have h0 : n - i = 0 := by omega
      rw [h0]
      rfl
  | succ d ih =>
      intro i start h
      rw [writeLoop]
      by_cases hin : i < n
      · rw [dif_pos hin]
        have hmin : min BATCH_ROWS (n - i) = min 3000 (n - i) := by
          simp [BATCH_ROWS]
        simp only [List.flatMap_cons, hmin]
        rw [ih (i + min 3000 (n - i)) (start + min 3000 (n - i)) (by omega)]
        have he : start + min 3000 (n - i) - 1 + 1 - start = min 3000 (n - i) := by
          omega
        rw [he]
        have happ := List.range'_append start (min 3000 (n - i))
          (n - (i + min 3000 (n - i))) 1
        simp only [one_mul] at happ
        rw [happ]
        congr 1
        omega
      · rw [dif_neg hin]
        have h0 : n - i = 0 := by omega
        rw [h0]
        rfl

/-- Number of write chunks from cursor `i` is the ceiling of the remaining
rows divided by the batch size. -/
lemma writeLoop_length (n : Nat) :
    ∀ d i start, n - i ≤ d →
      (writeLoop n i start).length = (n - i + BATCH_ROWS - 1) / BATCH_ROWS := by
  intro d
  induction d with
  | zero =>
      intro i start h
      rw [writeLoop, dif_neg (by omega)]
      have h0 : n - i = 0 := by omega
      rw [h0]
      decide
  | succ d ih =>
      intro i start h
      rw [writeLoop]
      by_cases hin : i < n
      · rw [dif_pos hin]
        rw [List.length_cons]
        have hmin : min BATCH_ROWS (n - i) = min 3000 (n - i) := by
          simp [BATCH_ROWS]
        rw [hmin,
          ih (i + min 3000 (n - i)) (start + min 3000 (n - i)) (by omega)]
        simp only [BATCH_ROWS]
        by_cases hbig : n - i ≤ 3000
        · have h1 : n - (i + min 3000 (n - i)) = 0 := by omega
          rw [h1]
          have h2 : (0 + 3000 - 1) / 3000 = 0 := by decide
          rw [h2]
          symm
          apply Nat.div_eq_of_lt_le <;> omega
        · have h1 : min 3000 (n - i) = 3000 := by omega
          rw [h1]
          have h2 : n - i + 3000 - 1 = (n - (i + 3000) + 3000 - 1) + 3000 := by
            omega
          rw [h2, Nat.add_div_right _ (by norm_num)]
      · rw [dif_neg hin]
        have h0 : n - i = 0 := by omega
        rw [h0]
        decide

/-- C5: for every data-row count `n` the chunked write issues exactly
`⌈n / 3000⌉` writes whose row ranges, concatenated in issue order, are
exactly the contiguous ascending run of destination rows
`3 .. n + 2`; in particular for 7000 rows there are 3 writes covering rows
3..3002, 3003..6002 and 6003..7002. -/
theorem write_chunks_partition :
    (∀ n : Nat,
      (writeChunks n).length = (n + BATCH_ROWS - 1) / BATCH_ROWS ∧
      (writeChunks n).flatMap (fun p => List.range' p.1 (p.2 + 1 - p.1)) =
        List.range' DEST_DATA_START_ROW n) ∧
    writeChunks 7000 = [(3, 3002), (3003, 6002), (6003, 7002)] := by
  constructor
  · intro n
    constructor
    · have h := writeLoop_length n n 0 DEST_DATA_START_ROW (by omega)
      simpa [writeChunks] using h
    · have h := writeLoop_rows n n 0 DEST_DATA_START_ROW (by omega)
      simpa [writeChunks] using h
  · have hm1 : min BATCH_ROWS (7000 - 0) = 3000 := by
      simp only [BATCH_ROWS]; omega
    have hm2 : min BATCH_ROWS (7000 - 3000) = 3000 := by
      simp only [BATCH_ROWS]; omega
    have hm3 : min BATCH_ROWS (7000 - 6000) = 1000 := by
      simp only [BATCH_ROWS]; omega
    have e1 : writeLoop 7000 0 3 = (3, 3002) :: writeLoop 7000 3000 3003 := by
      rw [writeLoop, dif_pos (by norm_num)]
      rw [hm1]
    have e2 : writeLoop 7000 3000 3003 = (3003, 6002) :: writeLoop 7000 6000 6003 := by
      rw [writeLoop, dif_pos (by norm_num)]
      rw [hm2]
    have e3 : writeLoop 7000 6000 6003 = (6003, 7002) :: writeLoop 7000 7000 7003 := by
      rw [writeLoop, dif_pos (by norm_num)]
      rw [hm3]
    have e4 : writeLoop 7000 7000 7003 = [] := by
      rw [writeLoop, dif_neg (by norm_num)]
    simp only [writeChunks, DEST_DATA_START_ROW]
    rw [e1, e2, e3, e4]

/-- Unfolding of `with_retry_from` when the call succeeds. -/
lemma with_retry_from_ok (call : Nat → CallOutcome) (mt : Nat) (base cap : ℚ)
    (jit : Nat → ℚ) (attempt : Nat) (v : Nat) (hc : call attempt = .ok v) :
    with_retry_from call mt base cap jit attempt = (.ok v, attempt, []) := by
  rw [with_retry_from, hc]

/-- Unfolding of `with_retry_from` on an `APIError`. -/
lemma with_retry_from_api (call : Nat → CallOutcome) (mt : Nat) (base cap : ℚ)
    (jit : Nat → ℚ) (attempt : Nat) (m : String)
    (hc : call attempt = .apiError m) :
    with_retry_from call mt base cap jit attempt =
      if ¬(is_retryable_api_error m = true) ∨ mt ≤ attempt then
        (.error (.apiError m), attempt, [])
      else
        ((with_retry_from call mt base cap jit (attempt + 1)).1,
         (with_retry_from call mt base cap jit (attempt + 1)).2.1,
         (min cap (base * 2 ^ (attempt - 1)) + jit attempt) ::
           (with_retry_from call mt base cap jit (attempt + 1)).2.2) := by
  rw [with_retry_from, hc]
  rfl

/-- Unfolding of `with_retry_from` on an unexpected exception. -/
lemma with_retry_from_exc (call : Nat → CallOutcome) (mt : Nat) (base cap : ℚ)
    (jit : Nat → ℚ) (attempt : Nat) (m : String)
    (hc : call attempt = .exc m) :
    with_retry_from call mt base cap jit attempt =
      if min 3 mt ≤ attempt then
        (.error (.exc m), attempt, [])
      else
        ((with_retry_from call mt base cap jit (attempt + 1)).1,
         (with_retry_from call mt base cap jit (attempt + 1)).2.1,
         (1 + jit attempt) ::
           (with_retry_from call mt base cap jit (attempt + 1)).2.2) := by
  rw [with_retry_from, hc]
  rfl

/-- Unfolding of the backoff-sleep list at its first attempt. -/
lemma apiSleeps_cons (base cap : ℚ) (jit : Nat → ℚ) (a k : Nat) (h : a < k) :
    apiSleeps base cap jit a k =
      (min cap (base * 2 ^ (a - 1)) + jit a) :: apiSleeps base cap jit (a + 1) k := by
  unfold apiSleeps
  have hs : k - a = (k - (a + 1)) + 1 := by omega
  rw [hs, List.range'_succ]
  rfl

/-- Running `with_retry`'s loop from attempt `a` across a window
`a ≤ b < k` of retryable API failures equals the run from attempt `k` with
the window's backoff sleeps prepended. -/
lemma with_retry_from_api_window (call : Nat → CallOutcome) (mt : Nat)
    (base cap : ℚ) (jit : Nat → ℚ) (k : Nat) (hkmt : k ≤ mt) :
    ∀ d a, a + d = k →
      (∀ b, a ≤ b → b < k → ∃ m, call b = .apiError m ∧
        is_retryable_api_error m = true) →
      with_retry_from call mt base cap jit a =
        ((with_retry_from call mt base cap jit k).1,
         (with_retry_from call mt base cap jit k).2.1,
         apiSleeps base cap jit a k ++
           (with_retry_from call mt base cap jit k).2.2) := by
  intro d
  induction d with
  | zero =>
      intro a ha _
      have hak : a = k := by omega
      subst hak
      simp [apiSleeps]
  | succ d ih =>
      intro a ha hpre
      obtain ⟨m, hm, hret⟩ := hpre a le_rfl (by omega)
      rw [with_retry_from_api call mt base cap jit a m hm,
        if_neg (not_or.mpr ⟨by simp [hret], by omega⟩)]
      have hnext := ih (a + 1) (by omega)
        (fun b hb1 hb2 => hpre b (by omega) hb2)
      simp only [hnext, apiSleeps_cons base cap jit a k (by omega),
        List.cons_append]

/-- The loop never reports an attempt number beyond `max_tries`. -/
lemma with_retry_from_attempt_le (call : Nat → CallOutcome) (mt : Nat)
    (base cap : ℚ) (jit : Nat → ℚ) :
    ∀ d a, mt - a ≤ d → a ≤ mt →
      (with_retry_from call mt base cap jit a).2.1 ≤ mt := by
  intro d
  induction d with
  | zero =>
      intro a h1 h2
      cases hc : call a with
      | ok v =>
          rw [with_retry_from_ok call mt base cap jit a v hc]
          exact h2
      | apiError m =>
          rw [with_retry_from_api call mt base cap jit a m hc,
            if_pos (Or.inr (by omega))]
          exact h2
      | exc m =>
          rw [with_retry_from_exc call mt base cap jit a m hc,
            if_pos (by omega)]
          exact h2
  | succ d ih =>
      intro a h1 h2
      cases hc : call a with
      | ok v =>
          rw [with_retry_from_ok call mt base cap jit a v hc]
          exact h2
      | apiError m =>
          rw [with_retry_from_api call mt base cap jit a m hc]
          by_cases hcond : ¬(is_retryable_api_error m = true) ∨ mt ≤ a
          · rw [if_pos hcond]
            exact h2
          · rw [if_neg hcond]
            have hlt : a < mt := by
              rcases not_or.mp hcond with ⟨-, hle⟩
              omega
            exact ih (a + 1) (by omega) (by omega)
      | exc m =>
          rw [with_retry_from_exc call mt base cap jit a m hc]
          by_cases hcond : min 3 mt ≤ a
          · rw [if_pos hcond]
            exact h2
          · rw [if_neg hcond]
            have hlt : a < mt := by omega
            exact ih (a + 1) (by omega) (by omega)

/-- C6: across a window of retryable API failures, each attempt
`a < max_tries` is followed by a sleep of exactly
`min(cap, base·2^(a−1)) + jitter(a)`; the wrapped call is attempted at most
`max_tries` times; and the loop re-raises the underlying error as soon as
it is non-retryable or the budget is exhausted (the uniform draw from
`[0, 0.5]` is modelled by the jitter oracle). -/
theorem with_retry_backoff_policy (call : Nat → CallOutcome) (mt : Nat)
    (base cap : ℚ) (jit : Nat → ℚ) (k : Nat) (hk1 : 1 ≤ k) (hkmt : k ≤ mt)
    (hpre : ∀ b, 1 ≤ b → b < k → ∃ m, call b = .apiError m ∧
      is_retryable_api_error m = true) :
    (with_retry call mt base cap jit).2.1 ≤ mt ∧
    (∀ v, call k = .ok v →
      with_retry call mt base cap jit =
        (.ok v, k, apiSleeps base cap jit 1 k)) ∧
    (∀ m, call k = .apiError m → is_retryable_api_error m = false →
      with_retry call mt base cap jit =
        (.error (.apiError m), k, apiSleeps base cap jit 1 k)) ∧
    (∀ m, call k = .apiError m → is_retryable_api_error m = true → k = mt →
      with_retry call mt base cap jit =
        (.error (.apiError m), k, apiSleeps base cap jit 1 k)) := by
  have hwin := with_retry_from_api_window call mt base cap jit k hkmt (k - 1) 1
    (by omega) (fun b hb1 hb2 => hpre b hb1 hb2)
  refine ⟨?_, ?_, ?_, ?_⟩
  · exact with_retry_from_attempt_le call mt base cap jit mt 1 (by omega) (by omega)
  · intro v hv
    have hstop : with_retry_from call mt base cap jit k = (.ok v, k, []) :=
      with_retry_from_ok call mt base cap jit k v hv
    rw [with_retry, hwin, hstop]
    simp
  · intro m hm hret
    have hstop : with_retry_from call mt base cap jit k =
        (.error (.apiError m), k, []) := by
      rw [with_retry_from_api call mt base cap jit k m hm,
        if_pos (Or.inl (by simp [hret]))]
    rw [with_retry, hwin, hstop]
    simp
  · intro m hm hret hk
    have hstop : with_retry_from call mt base cap jit k =
        (.error (.apiError m), k, []) := by
      rw [with_retry_from_api call mt base cap jit k m hm,
        if_pos (Or.inr (by omega))]
    rw [with_retry, hwin, hstop]
    simp

/-- Witness trace for the backoff policy: one retryable 503 then success,
with the default budget of 9 tries, base 0.8 and cap 12. -/
theorem with_retry_backoff_policy_witness :
    with_retry
      (fun a => if a = 1 then .apiError "[503]: Service Unavailable" else .ok 7)
      WITH_RETRY_DEFAULT_MAX_TRIES (4/5) 12 (fun _ => 0) =
      (.ok 7, 2, [4/5]) := by
  have h := (with_retry_backoff_policy
      (fun a => if a = 1 then .apiError "[503]: Service Unavailable" else .ok 7)
      WITH_RETRY_DEFAULT_MAX_TRIES (4/5) 12 (fun _ => 0) 2
      (by norm_num) (by decide)
      (by
        intro b h1 h2
        have hb : b = 1 := by omega
        subst hb
        exact ⟨_, rfl, by decide⟩)).2.1 7 rfl
  rw [h]
  norm_num [apiSleeps, List.range', min_def]

/-- C10: the two exception arms of `with_retry` share one attempt counter:
after `min(3, max_tries) − 1` retryable API failures, a first unexpected
exception at attempt `min(3, max_tries)` is propagated immediately — it is
not granted a fresh budget of its own. -/
theorem with_retry_shared_attempt_counter (call : Nat → CallOutcome)
    (mt : Nat) (base cap : ℚ) (jit : Nat → ℚ) (m : String) (hmt : 1 ≤ mt)
    (hpre : ∀ b, 1 ≤ b → b < min 3 mt → ∃ s, call b = .apiError s ∧
      is_retryable_api_error s = true)
    (hexc : call (min 3 mt) = .exc m) :
    with_retry call mt base cap jit =
      (.error (.exc m), min 3 mt, apiSleeps base cap jit 1 (min 3 mt)) := by
  have hkmt : min 3 mt ≤ mt := by omega
  have hwin := with_retry_from_api_window call mt base cap jit (min 3 mt) hkmt
    (min 3 mt - 1) 1 (by omega) hpre
  have hstop : with_retry_from call mt base cap jit (min 3 mt) =
      (.error (.exc m), min 3 mt, []) := by
    rw [with_retry_from_exc call mt base cap jit (min 3 mt) m hexc,
      if_pos le_rfl]
  rw [with_retry, hwin, hstop]
  simp

/-- Witness trace for the shared counter: two retryable 503s then an
unexpected exception, which is re-raised at attempt 3 of 9 with only the
two API backoff sleeps performed. -/
theorem with_retry_shared_attempt_counter_witness :
    with_retry
      (fun a => if a ≤ 2 then .apiError "[503]: Service Unavailable"
                else .exc "connection reset")
      WITH_RETRY_DEFAULT_MAX_TRIES (4/5) 12 (fun _ => 0) =
      (.error (.exc "connection reset"), 3, [4/5, 8/5]) := by
  have h := with_retry_shared_attempt_counter
      (fun a => if a ≤ 2 then .apiError "[503]: Service Unavailable"
                else .exc "connection reset")
      WITH_RETRY_DEFAULT_MAX_TRIES (4/5) 12 (fun _ => 0) "connection reset"
      (by decide)
      (by
        intro b h1 h2
        have hb : b = 1 ∨ b = 2 := by
          simp only [WITH_RETRY_DEFAULT_MAX_TRIES] at h2
          omega
        rcases hb with hb | hb <;> subst hb <;> exact ⟨_, rfl, by decide⟩)
      (by decide)
  rw [h]
  norm_num [apiSleeps, List.range', min_def, WITH_RETRY_DEFAULT_MAX_TRIES]

/-- Unfolding of `main_from` when the run succeeds. -/
lemma main_from_ok (run : Nat → RunOutcome) (jit : Nat → ℚ) (attempt : Nat)
    (hc : run attempt = .ok) :
    main_from run jit attempt = (.ok (), attempt, []) := by
  rw [main_from, hc]

/-- Unfolding of `main_from` when the run fails with an `APIError`. -/
lemma main_from_api (run : Nat → RunOutcome) (jit : Nat → ℚ) (attempt : Nat)
    (m : String) (hc : run attempt = .apiError m) :
    main_from run jit attempt =
      if is_retryable_api_error m = true ∧ attempt < MAX_RUN_TRIES then
        ((main_from run jit (attempt + 1)).1,
         (main_from run jit (attempt + 1)).2.1,
         (5 * (attempt : ℚ) + jit attempt) ::
           (main_from run jit (attempt + 1)).2.2)
      else (.error (.apiError m), attempt, []) := by
  rw [main_from, hc]
  rfl

/-- Unfolding of `main_from` when the run fails with an unexpected
exception. -/
lemma main_from_exc (run : Nat → RunOutcome) (jit : Nat → ℚ) (attempt : Nat)
    (m : String) (hc : run attempt = .exc m) :
    main_from run jit attempt =
      if attempt < MAX_RUN_TRIES then
        ((main_from run jit (attempt + 1)).1,
         (main_from run jit (attempt + 1)).2.1,
         (3 + jit attempt) :: (main_from run jit (attempt + 1)).2.2)
      else (.error (.exc m), attempt, []) := by
  rw [main_from, hc]
  rfl

/-- C3 (counterexample): a non-retryable `APIError` escaping the first run
attempt is re-raised immediately by `main` — no restart happens and no
delay is slept, although only 1 of the 3 run attempts was used. -/
theorem main_nonretryable_fatal_without_restart :
    main_run (fun _ => .apiError "APIError: [403]: PERMISSION_DENIED")
        (fun _ => 0) =
      (.error (.apiError "APIError: [403]: PERMISSION_DENIED"), 1, []) ∧
    (1 : Nat) < MAX_RUN_TRIES := by
  constructor
  · have h403 : is_retryable_api_error "APIError: [403]: PERMISSION_DENIED" =
        false := by decide
    rw [main_run,
      main_from_api (fun _ => .apiError "APIError: [403]: PERMISSION_DENIED")
        (fun _ => 0) 1 "APIError: [403]: PERMISSION_DENIED" rfl,
      if_neg (by simp [h403])]
  · decide

/-- Unfolding of the restart-delay list at its first attempt. -/
lemma mainDelays_cons (run : Nat → RunOutcome) (jit : Nat → ℚ) (a k : Nat)
    (h : a < k) :
    mainDelays run jit a k =
      mainDelay run jit a :: mainDelays run jit (a + 1) k := by
  unfold mainDelays
  have hs : k - a = (k - (a + 1)) + 1 := by omega
  rw [hs, List.range'_succ]
  rfl

/-- Running `main`'s loop from attempt `a` across a window `a ≤ b < k` of
restartable failures (retryable `APIError`s or unexpected exceptions)
equals the run from attempt `k` with the window's restart delays
prepended. -/
lemma main_from_window (run : Nat → RunOutcome) (jit : Nat → ℚ) (k : Nat)
    (hk : k ≤ MAX_RUN_TRIES) :
    ∀ d a, a + d = k →
      (∀ b, a ≤ b → b < k →
        (∃ m, run b = .apiError m ∧ is_retryable_api_error m = true) ∨
        (∃ m, run b = .exc m)) →
      main_from run jit a =
        ((main_from run jit k).1, (main_from run jit k).2.1,
          mainDelays run jit a k ++ (main_from run jit k).2.2) := by
  intro d
  induction d with
  | zero =>
      intro a ha _
      have hak : a = k := by omega
      subst hak
      simp [mainDelays]
  | succ d ih =>
      intro a ha hpre
      have hnext := ih (a + 1) (by omega)
        (fun b hb1 hb2 => hpre b (by omega) hb2)
      rcases hpre a le_rfl (by omega) with ⟨m, hm, hret⟩ | ⟨m, hm⟩
      · rw [main_from_api run jit a m hm, if_pos ⟨hret, by omega⟩]
        have hdel : mainDelay run jit a = 5 * (a : ℚ) + jit a := by
          rw [mainDelay, hm]
        simp only [hnext, mainDelays_cons run jit a k (by omega), hdel,
          List.cons_append]
      · rw [main_from_exc run jit a m hm, if_pos (by omega)]
        have hdel : mainDelay run jit a = 3 + jit a := by
          rw [mainDelay, hm]
        simp only [hnext, mainDelays_cons run jit a k (by omega), hdel,
          List.cons_append]

/-- C3 (amended): while run attempts remain, `main` restarts the whole run
after a retryable `APIError` (delay `5·attempt + jitter`, linearly
increasing) and after an unexpected exception (flat delay `3 + jitter`);
a non-retryable `APIError` is re-raised at once, and any failure of run
attempt 3 (the last) is fatal, re-raising the original error. -/
theorem main_restart_policy (run : Nat → RunOutcome) (jit : Nat → ℚ)
    (k : Nat) (hk1 : 1 ≤ k) (hk3 : k ≤ MAX_RUN_TRIES)
    (hpre : ∀ b, 1 ≤ b → b < k →
      (∃ m, run b = .apiError m ∧ is_retryable_api_error m = true) ∨
      (∃ m, run b = .exc m)) :
    (run k = .ok →
      main_run run jit = (.ok (), k, mainDelays run jit 1 k)) ∧
    (∀ m, run k = .apiError m → is_retryable_api_error m = false →
      main_run run jit = (.error (.apiError m), k, mainDelays run jit 1 k)) ∧
    (∀ m, run k = .apiError m → k = MAX_RUN_TRIES →
      main_run run jit = (.error (.apiError m), k, mainDelays run jit 1 k)) ∧
    (∀ m, run k = .exc m → k = MAX_RUN_TRIES →
      main_run run jit = (.error (.exc m), k, mainDelays run jit 1 k)) := by
  have hwin := main_from_window run jit k hk3 (k - 1) 1 (by omega)
    (fun b hb1 hb2 => hpre b hb1 hb2)
  refine ⟨?_, ?_, ?_, ?_⟩
  · intro hok
    have hstop : main_from run jit k = (.ok (), k, []) :=
      main_from_ok run jit k hok
    rw [main_run, hwin, hstop]
    simp
  · intro m hm hret
    have hstop : main_from run jit k = (.error (.apiError m), k, []) := by
      rw [main_from_api run jit k m hm, if_neg (by simp [hret])]
    rw [main_run, hwin, hstop]
    simp
  · intro m hm hk
    have hstop : main_from run jit k = (.error (.apiError m), k, []) := by
      rw [main_from_api run jit k m hm, if_neg (by omega)]
    rw [main_run, hwin, hstop]
    simp
  · intro m hm hk
    have hstop : main_from run jit k = (.error (.exc m), k, []) := by
      rw [main_from_exc run jit k m hm, if_neg (by omega)]
    rw [main_run, hwin, hstop]
    simp

/-- Witness trace for the restart policy: a retryable 503 on run 1, an
unexpected exception on run 2, success on run 3, with delays `5·1` then a
flat `3` (zero jitter). -/
theorem main_restart_policy_witness :
    main_run
      (fun a => if a = 1 then .apiError "[503]: Service Unavailable"
                else if a = 2 then .exc "socket timeout" else .ok)
      (fun _ => 0) = (.ok (), 3, [5, 3]) := by
  have h := (main_restart_policy
      (fun a => if a = 1 then .apiError "[503]: Service Unavailable"
                else if a = 2 then .exc "socket timeout" else .ok)
      (fun _ => 0) 3 (by norm_num) (by decide)
      (by
        intro b h1 h2
        have hb : b = 1 ∨ b = 2 := by omega
        rcases hb with hb | hb <;> subst hb
        · exact .inl ⟨_, rfl, by decide⟩
        · exact .inr ⟨_, rfl⟩)).1 rfl
  rw [h]
  norm_num [mainDelays, mainDelay, List.range']

end Espelho
